import Mathlib

/-!
# Verification of the auto-reply email pipeline (`src/functions/auto_reply/main.py`)

This development gives a shallow embedding, in Lean, of the control logic of
the Gmail auto-reply service: the message-eligibility filter
(`is_email_allowed`), the age check (`is_email_recent`), the duplicate-reply
guard (`has_auto_reply_label` / `add_auto_reply_label`), the reply dispatcher
(`send_reply`), the per-message pipeline (`process_message`), the three-tier
history fetch (`process_new_messages`) and the HTTP push handler
(`process_pubsub_push`).

Python strings are modelled as `List Char`; the Python string operations used
by the source (`in`, `count`, `split`, `strip`, `lower`) are modelled by
executable functions below.  External services (Gmail API, customer API,
Vertex AI) are modelled as oracles: structures of fields describing the
outcome of each API call a function performs, with `none` standing for the
call raising an exception.
-/

set_option autoImplicit false

namespace AutoReply

/-- Python strings, modelled as lists of characters. -/
abbrev Str := List Char

/-- Python `needle in haystack` (substring containment) for strings. -/
def pyIn (needle : Str) : Str → Bool
  | [] => needle.isEmpty
  | c :: rest => needle.isPrefixOf (c :: rest) || pyIn needle rest

/-- Python `s.lower()` (ASCII case folding suffices for the source's data). -/
def pyLower (s : Str) : Str := s.map Char.toLower

/-- Python `s.strip()`: remove leading and trailing whitespace. -/
def pyStrip (s : Str) : Str :=
  ((s.dropWhile Char.isWhitespace).reverse.dropWhile Char.isWhitespace).reverse

/-- Python `s.split(c)[0]`: the text before the first occurrence of `c`
(the whole string if `c` is absent). -/
def beforeFirst (c : Char) : Str → Str
  | [] => []
  | x :: rest => if x = c then [] else x :: beforeFirst c rest

/-- Everything after the first occurrence of `c` (empty if `c` is absent);
`s.split(c)[1]` is `beforeFirst c (afterFirst c s)`. -/
def afterFirst (c : Char) : Str → Str
  | [] => []
  | x :: rest => if x = c then rest else afterFirst c rest

/-- Python `s.split(c)[-1]`: the text after the last occurrence of `c`
(the whole string if `c` is absent). -/
def afterLast (c : Char) (s : Str) : Str :=
  (s.reverse.takeWhile (fun x => ¬ x = c)).reverse

/-- Helper for `pyCount`: walk the string left to right, skipping `skip`
characters after a match, as CPython's non-overlapping `str.count` does. -/
def pyCountAux (needle : Str) : Nat → Str → Nat
  | _, [] => 0
  | Nat.succ k, _ :: rest => pyCountAux needle k rest
  | 0, c :: rest =>
    if needle.isPrefixOf (c :: rest) then
      1 + pyCountAux needle (needle.length - 1) rest
    else
      pyCountAux needle 0 rest

/-- Python `haystack.count(needle)` for a non-empty needle:
number of non-overlapping occurrences, scanning left to right. -/
def pyCount (needle hay : Str) : Nat := pyCountAux needle 0 hay

/-- The extracted fields of one email, as built by `extract_email_data`
(`main.py:233`): the dictionary keys become structure fields. -/
structure EmailData where
  id : Str
  threadId : Str
  subject : Str
  fromHdr : Str
  toHdr : Str
  body : Str
  replyTo : Str
  autoSubmitted : Str
  xAutoResponseSuppress : Str
  precedence : Str
  xAutoreply : Str
  xAutorespond : Str
  deriving DecidableEq, Repr

/-- `ALLOWED_EMAIL_ADDRESS` (`main.py:60`). -/
def ALLOWED_EMAIL_ADDRESS : Str := "addhe.warman+cs@gmail.com".toList

/-- `AUTO_REPLY_LABEL` (`main.py:66`). -/
def AUTO_REPLY_LABEL : Str := "Auto-Replied".toList

/-- The display-name part of From used by `is_email_allowed` (`main.py:82-86`):
lowercase From, and if it is of the form `Name <addr>`, the stripped
lowercased text before `<`. -/
def fromName (d : EmailData) : Str :=
  let fn := pyLower d.fromHdr
  if ('<' ∈ fn ∧ '>' ∈ fn) then pyLower (pyStrip (beforeFirst '<' fn)) else fn

/-- The bracketed sender address used by `is_email_allowed` (`main.py:101-103`):
`from_address.split('<')[1].split('>')[0]` when brackets are present. -/
def senderEmail (d : EmailData) : Str :=
  let fa := pyLower d.fromHdr
  if ('<' ∈ fa ∧ '>' ∈ fa) then
    pyLower (beforeFirst '>' (beforeFirst '<' (afterFirst '<' fa)))
  else fa

/-- The reply-marker count of `is_email_allowed` (`main.py:111-115`):
total occurrences of `re:`, `fw:`, `fwd:` in the lowercased subject. -/
def replyCount (d : EmailData) : Nat :=
  pyCount "re:".toList (pyLower d.subject) +
    pyCount "fw:".toList (pyLower d.subject) +
    pyCount "fwd:".toList (pyLower d.subject)

/-- The auto-reply content indicator phrases (`main.py:150-155`). -/
def autoReplyIndicators : List Str :=
  ["auto-reply", "automatic reply", "auto reply", "out of office",
   "automated response", "do not reply", "noreply", "no-reply",
   "mailer-daemon", "mail delivery", "delivery status", "delivery failure",
   "undeliverable", "returned mail"].map String.toList

/-- The spam keywords (`main.py:169`). -/
def spamKeywords : List Str :=
  ["viagra", "casino", "lottery", "winner", "urgent", "click here",
   "free money"].map String.toList

/-- The sender domain used by the whitelist rule (`main.py:163`):
`from_address.split('@')[-1]` when `@` is present, else empty. -/
def senderDomain (d : EmailData) : Str :=
  let fa := pyLower d.fromHdr
  if '@' ∈ fa then pyLower (afterLast '@' fa) else []

/-- Rejection condition of `main.py:76`: the lowercased To header does not
contain the allowed alias.  `toContainsAlias` is the passing direction. -/
def toContainsAlias (d : EmailData) : Bool :=
  pyIn (pyLower ALLOWED_EMAIL_ADDRESS) (pyLower d.toHdr)

/-- Rejection condition of `main.py:89`: the lowercased From header contains
the allowed alias. -/
def fromContainsAlias (d : EmailData) : Bool :=
  pyIn (pyLower ALLOWED_EMAIL_ADDRESS) (pyLower d.fromHdr)

/-- Rejection condition of `main.py:94-95`: the alias's local part occurs in
the From display name. -/
def nameMatchesSystem (d : EmailData) : Bool :=
  pyIn (pyLower (beforeFirst '@' ALLOWED_EMAIL_ADDRESS)) (fromName d)

/-- Rejection condition of `main.py:105`: sender address non-empty, To
non-empty, and the sender address occurs in To. -/
def senderToSelf (d : EmailData) : Bool :=
  !(senderEmail d).isEmpty && !(pyLower d.toHdr).isEmpty &&
    pyIn (senderEmail d) (pyLower d.toHdr)

/-- Rejection condition of `main.py:117`: at least two reply markers in the
subject. -/
def multipleReplyMarkers (d : EmailData) : Bool := 2 ≤ replyCount d

/-- Rejection condition of `main.py:133`: Auto-Submitted present and not
`no`. -/
def autoSubmittedHeader (d : EmailData) : Bool :=
  !(pyLower d.autoSubmitted).isEmpty &&
    !(pyLower d.autoSubmitted = "no".toList : Bool)

/-- Rejection condition of `main.py:137`: X-Auto-Response-Suppress
non-empty. -/
def suppressHeader (d : EmailData) : Bool :=
  !(pyLower d.xAutoResponseSuppress).isEmpty

/-- Rejection condition of `main.py:141`: Precedence is bulk, auto_reply or
junk. -/
def precedenceHeader (d : EmailData) : Bool :=
  pyLower d.precedence ∈ ["bulk".toList, "auto_reply".toList, "junk".toList]

/-- Rejection condition of `main.py:145`: X-AutoReply or X-Autorespond
non-empty. -/
def explicitAutoReplyHeader (d : EmailData) : Bool :=
  !(pyLower d.xAutoreply).isEmpty || !(pyLower d.xAutorespond).isEmpty

/-- Rejection condition of `main.py:157`: an auto-reply indicator phrase in
subject or body. -/
def contentAutoReply (d : EmailData) : Bool :=
  autoReplyIndicators.any (fun ind =>
    pyIn ind (pyLower d.subject) || pyIn ind (pyLower d.body))

/-- Rejection condition of `main.py:162-164`: a whitelist is configured and
no whitelisted domain occurs in the sender domain. -/
def domainNotAllowed (allowed_senders : List Str) (d : EmailData) : Bool :=
  !allowed_senders.isEmpty &&
    !(allowed_senders.any (fun dom => pyIn (pyLower dom) (senderDomain d)))

/-- Rejection condition of `main.py:170`: a spam keyword in subject or
body. -/
def spamContent (d : EmailData) : Bool :=
  spamKeywords.any (fun kw =>
    pyIn kw (pyLower d.subject) || pyIn kw (pyLower d.body))

/-- `is_email_allowed` (`main.py:71-179`), parameterized by the configured
sender-domain whitelist `ALLOWED_SENDERS` (an empty module constant in the
source, `main.py:62`).  Returns the `(allowed, reason)` pair the source
returns; the final broad `except` of the source is unreachable for this pure
computation and is not modelled. -/
def is_email_allowed (allowed_senders : List Str) (d : EmailData) :
    Bool × String :=
  if !toContainsAlias d then
    (false, "Email not sent to allowed address")
  else if fromContainsAlias d then
    (false, "Email is from our own system")
  else if nameMatchesSystem d then
    (false, "Email is likely from our system (name match)")
  else if senderToSelf d then
    (false, "Email is a potential reply loop (sender to self)")
  else if multipleReplyMarkers d then
    (false, "Email has multiple reply indicators in subject")
  else if autoSubmittedHeader d then
    (false, "Email is an automatic reply (auto-submitted header)")
  else if suppressHeader d then
    (false, "Email is an automatic reply (x-auto-response-suppress header)")
  else if precedenceHeader d then
    (false, "Email is an automatic reply (precedence header)")
  else if explicitAutoReplyHeader d then
    (false, "Email is an automatic reply (explicit header)")
  else if contentAutoReply d then
    (false, "Email is an automatic reply (content indicators)")
  else if domainNotAllowed allowed_senders d then
    (false, "Sender domain not allowed")
  else if spamContent d then
    (false, "Email contains spam keywords")
  else
    (true, "Email allowed")

/-! ## Rule-list view of the eligibility filter (spec §4.3, for claim C3) -/

/-- One eligibility rule: a predicate that must pass, and the reason reported
when it is the first rule to fail. -/
structure Rule where
  test : EmailData → Bool
  reason : String

/-- Evaluate a rule list in order: the first failing rule determines the
reported reason; if every rule passes the message is allowed.  This is the
spec's description of the filter (spec §4.3: "evaluated in a fixed rule order
so that the first failing rule determines the reported reason"). -/
def evalRules (rs : List Rule) (d : EmailData) : Bool × String :=
  match rs with
  | [] => (true, "Email allowed")
  | r :: rest => if r.test d then evalRules rest d else (false, r.reason)

/-- The fixed rule order claimed by the spec: addressing, self-loop by From
address, self-loop by display name, sender-equals-recipient, reply-marker
count, the four auto-reply header rules, content auto-reply phrases,
sender-domain whitelist (vacuously true when no whitelist is configured),
spam keywords. -/
def securityRules (allowed_senders : List Str) : List Rule :=
  [⟨fun d => toContainsAlias d, "Email not sent to allowed address"⟩,
   ⟨fun d => !fromContainsAlias d, "Email is from our own system"⟩,
   ⟨fun d => !nameMatchesSystem d, "Email is likely from our system (name match)"⟩,
   ⟨fun d => !senderToSelf d, "Email is a potential reply loop (sender to self)"⟩,
   ⟨fun d => !multipleReplyMarkers d, "Email has multiple reply indicators in subject"⟩,
   ⟨fun d => !autoSubmittedHeader d, "Email is an automatic reply (auto-submitted header)"⟩,
   ⟨fun d => !suppressHeader d,
    "Email is an automatic reply (x-auto-response-suppress header)"⟩,
   ⟨fun d => !precedenceHeader d, "Email is an automatic reply (precedence header)"⟩,
   ⟨fun d => !explicitAutoReplyHeader d, "Email is an automatic reply (explicit header)"⟩,
   ⟨fun d => !contentAutoReply d, "Email is an automatic reply (content indicators)"⟩,
   ⟨fun d => !domainNotAllowed allowed_senders d, "Sender domain not allowed"⟩,
   ⟨fun d => !spamContent d, "Email contains spam keywords"⟩]

/-- A rule list is passed entirely iff `evalRules` reports `allowed`. -/
theorem evalRules_fst_eq_true_iff (rs : List Rule) (d : EmailData) :
    (evalRules rs d).1 = true ↔ ∀ r ∈ rs, r.test d = true := by
  induction rs with
  | nil => simp [evalRules]
  | cons r rest ih =>
    by_cases h : r.test d = true
    · simp [evalRules, h, ih]
    · constructor
      · intro hfalse
        simp [evalRules, h] at hfalse
      · intro hall
        exact absurd (hall r (List.mem_cons_self r rest)) h

/-- The code's eligibility filter is the in-order evaluation of the spec's
rule list. -/
theorem is_email_allowed_eq_evalRules (cfg : List Str) (d : EmailData) :
    is_email_allowed cfg d = evalRules (securityRules cfg) d := by
  unfold is_email_allowed securityRules
  simp only [evalRules]
  by_cases h1 : toContainsAlias d = true
  · by_cases h2 : fromContainsAlias d = true
    · simp [evalRules, h1, h2]
    · by_cases h3 : nameMatchesSystem d = true
      · simp [evalRules, h1, h2, h3]
      · by_cases h4 : senderToSelf d = true
        · simp [evalRules, h1, h2, h3, h4]
        · by_cases h5 : multipleReplyMarkers d = true
          · simp [evalRules, h1, h2, h3, h4, h5]
          · by_cases h6 : autoSubmittedHeader d = true
            · simp [evalRules, h1, h2, h3, h4, h5, h6]
            · by_cases h7 : suppressHeader d = true
              · simp [evalRules, h1, h2, h3, h4, h5, h6, h7]
              · by_cases h8 : precedenceHeader d = true
                · simp [evalRules, h1, h2, h3, h4, h5, h6, h7, h8]
                · by_cases h9 : explicitAutoReplyHeader d = true
                  · simp [evalRules, h1, h2, h3, h4, h5, h6, h7, h8, h9]
                  · by_cases h10 : contentAutoReply d = true
                    · simp [evalRules, h1, h2, h3, h4, h5, h6, h7, h8, h9, h10]
                    · by_cases h11 : domainNotAllowed cfg d = true
                      · simp [evalRules, h1, h2, h3, h4, h5, h6, h7, h8, h9,
                          h10, h11]
                      · by_cases h12 : spamContent d = true
                        · simp [evalRules, h1, h2, h3, h4, h5, h6, h7, h8, h9,
                            h10, h11, h12]
                        · simp [evalRules, h1, h2, h3, h4, h5, h6, h7, h8, h9,
                            h10, h11, h12]
  · simp [evalRules, h1]

/-- C3: the eligibility filter evaluates its rules in the fixed order
addressing check, self-loop by From address, self-loop by display name,
sender-equals-recipient, reply-marker count in Subject (reject when the total
count of `re:`, `fw:`, `fwd:` is at least 2), the auto-reply header rules,
content auto-reply phrases, sender-domain whitelist (vacuous when no
whitelist is configured), spam keywords; the first failing rule determines
the reported reason, and the message is allowed iff every rule passes. -/
theorem claim_C3_filter_rule_order (cfg : List Str) (d : EmailData) :
    is_email_allowed cfg d = evalRules (securityRules cfg) d ∧
      ((is_email_allowed cfg d).1 = true ↔
        ∀ r ∈ securityRules cfg, r.test d = true) := by
  refine ⟨is_email_allowed_eq_evalRules cfg d, ?_⟩
  rw [is_email_allowed_eq_evalRules cfg d]
  exact evalRules_fst_eq_true_iff _ d

/-- A concrete instance of `claim_C3_filter_rule_order`. -/
theorem claim_C3_filter_rule_order_witness :
    is_email_allowed []
        { id := "m1".toList, threadId := "t1".toList,
          subject := "Re: Re: hello".toList,
          fromHdr := "Alice <alice@example.com>".toList,
          toHdr := "addhe.warman+cs@gmail.com".toList,
          body := "hi".toList, replyTo := "alice@example.com".toList,
          autoSubmitted := [], xAutoResponseSuppress := [], precedence := [],
          xAutoreply := [], xAutorespond := [] } =
      evalRules (securityRules [])
        { id := "m1".toList, threadId := "t1".toList,
          subject := "Re: Re: hello".toList,
          fromHdr := "Alice <alice@example.com>".toList,
          toHdr := "addhe.warman+cs@gmail.com".toList,
          body := "hi".toList, replyTo := "alice@example.com".toList,
          autoSubmitted := [], xAutoResponseSuppress := [], precedence := [],
          xAutoreply := [], xAutorespond := [] } :=
  (claim_C3_filter_rule_order [] _).1

/-! ## The age check `is_email_recent` (claim C8)

Time is modelled in integer epoch milliseconds: the source converts
`internalDate` from milliseconds to a float timestamp and compares
`datetime` values; at the millisecond granularity of the claims this is the
integer comparison modelled here. -/

/-- `MAX_EMAIL_AGE_HOURS` (`main.py:61`) converted to milliseconds. -/
def maxEmailAgeMs : Int := 24 * 3600 * 1000

/-- The `internalDate` field of a message as seen by `is_email_recent`:
absent (the source substitutes the default `0`), present but not parseable
as an integer (Python `int()` raises), or a parsed millisecond value. -/
inductive InternalDateField where
  | missing
  | unparseable
  | val (ms : Int)
  deriving DecidableEq, Repr

/-- Result of `int(message.get('internalDate', 0))` (`main.py:188`):
`none` when `int()` raises, which the source's `except` turns into a
rejection. -/
def internalDateParsed : InternalDateField → Option Int
  | .missing => some 0
  | .unparseable => none
  | .val ms => some ms

/-- `is_email_recent` (`main.py:181-203`): true iff the message timestamp is
not before `now` minus the maximum age; an exception while parsing
`internalDate` yields `false` (fail closed, `main.py:201-203`). -/
def is_email_recent (fld : InternalDateField) (nowMs : Int) : Bool :=
  match internalDateParsed fld with
  | none => false
  | some ms => if ms < nowMs - maxEmailAgeMs then false else true

/-- C8: the age check allows a message iff its `internalDate` parses to a
timestamp at least `now` minus 24 hours (inclusive window boundary); a
message at now−24h+1ms is allowed, one at now−24h−1ms is rejected, and a
parse failure is rejected (fail closed). -/
theorem claim_C8_age_boundary (fld : InternalDateField) (nowMs : Int) :
    (is_email_recent fld nowMs = true ↔
      ∃ ms, internalDateParsed fld = some ms ∧ nowMs - maxEmailAgeMs ≤ ms) ∧
      is_email_recent (.val (nowMs - maxEmailAgeMs + 1)) nowMs = true ∧
      is_email_recent (.val (nowMs - maxEmailAgeMs)) nowMs = true ∧
      is_email_recent (.val (nowMs - maxEmailAgeMs - 1)) nowMs = false ∧
      is_email_recent .unparseable nowMs = false := by
  refine ⟨?_, ?_, ?_, ?_, rfl⟩
  · cases fld with
    | missing =>
      simp only [is_email_recent, internalDateParsed]
      constructor
      · intro h
        refine ⟨0, rfl, ?_⟩
        by_contra hlt
        rw [if_pos (by omega)] at h
        exact Bool.false_ne_true h
      · rintro ⟨m, hm, hle⟩
        injection hm with hm'
        subst hm'
        rw [if_neg (by omega)]
    | unparseable => simp [is_email_recent, internalDateParsed]
    | val ms =>
      simp only [is_email_recent, internalDateParsed]
      constructor
      · intro h
        refine ⟨ms, rfl, ?_⟩
        by_contra hlt
        rw [if_pos (by omega)] at h
        exact Bool.false_ne_true h
      · rintro ⟨m, hm, hle⟩
        injection hm with hm'
        subst hm'
        rw [if_neg (by omega)]
  · simp only [is_email_recent, internalDateParsed]
    rw [if_neg (by omega)]
  · simp only [is_email_recent, internalDateParsed]
    rw [if_neg (by omega)]
  · simp only [is_email_recent, internalDateParsed]
    rw [if_pos (by omega)]

/-- A concrete instance of `claim_C8_age_boundary` at `now` = 10^12 ms. -/
theorem claim_C8_age_boundary_witness :
    is_email_recent (.val (1000000000000 - maxEmailAgeMs + 1)) 1000000000000
        = true ∧
      is_email_recent (.val (1000000000000 - maxEmailAgeMs - 1)) 1000000000000
        = false ∧
      is_email_recent .unparseable 1000000000000 = false := by
  obtain ⟨-, h1, -, h2, h3⟩ := claim_C8_age_boundary .missing 1000000000000
  exact ⟨h1, h2, h3⟩

/-! ## Header extraction and reply composition (claims C6, C7) -/

/-- `extract_email_data` (`main.py:233-286`) over a header list: each header
whose lowercased name matches one of the known keys assigns the
corresponding field (a later header overwrites an earlier one, as in the
source loop); if no Reply-To was found, From is used.  The MIME body-part
decoding of the source is abstracted: `body` is the already-decoded
plain-text body. -/
def extract_email_data (msgId threadId : Str) (headers : List (Str × Str))
    (body : Str) : EmailData :=
  let init : EmailData :=
    { id := msgId, threadId := threadId, subject := [], fromHdr := [],
      toHdr := [], body := body, replyTo := [], autoSubmitted := [],
      xAutoResponseSuppress := [], precedence := [], xAutoreply := [],
      xAutorespond := [] }
  let d := headers.foldl (fun d h =>
    let name := pyLower h.1
    if name = "subject".toList then { d with subject := h.2 }
    else if name = "from".toList then { d with fromHdr := h.2 }
    else if name = "to".toList then { d with toHdr := h.2 }
    else if name = "reply-to".toList then { d with replyTo := h.2 }
    else if name = "auto-submitted".toList then { d with autoSubmitted := h.2 }
    else if name = "x-auto-response-suppress".toList then
      { d with xAutoResponseSuppress := h.2 }
    else if name = "precedence".toList then { d with precedence := h.2 }
    else if name = "x-autoreply".toList then { d with xAutoreply := h.2 }
    else if name = "x-autorespond".toList then { d with xAutorespond := h.2 }
    else d) init
  if d.replyTo.isEmpty then { d with replyTo := d.fromHdr } else d

/-- A composed outbound MIME message: ordered header list plus body. -/
structure MimeMessage where
  headers : List (Str × Str)
  body : Str
  deriving DecidableEq, Repr

/-- The message composition of `send_reply` (`main.py:666-690`):
recipient is the original Reply-To, subject is unconditionally
`"Re: " + subject`, From is the alias (or `PRIMARY_FROM` when
`USE_PRIMARY_FROM` is set and `PRIMARY_FROM` non-empty), Reply-To is the
alias, In-Reply-To/References carry the original message id, and the four
auto-reply loop-prevention headers are set. -/
def composeReply (usePrimaryFrom : Bool) (primaryFrom : Str) (d : EmailData)
    (response_text : Str) : MimeMessage :=
  let from_addr :=
    if usePrimaryFrom && !primaryFrom.isEmpty then primaryFrom
    else "addhe.warman+cs@gmail.com".toList
  { headers :=
      [("to".toList, d.replyTo),
       ("subject".toList, "Re: ".toList ++ d.subject),
       ("From".toList, from_addr),
       ("Reply-To".toList, "addhe.warman+cs@gmail.com".toList),
       ("In-Reply-To".toList, d.id),
       ("References".toList, d.id),
       ("Auto-Submitted".toList, "auto-replied".toList),
       ("X-Auto-Response-Suppress".toList, "All".toList),
       ("Precedence".toList, "auto_reply".toList),
       ("X-AutoReply".toList, "yes".toList)],
    body := response_text }

/-- The claim's description of the outgoing subject (spec §4.5: "Subject is
prefixed with `Re:` unless already so prefixed"). -/
def claimedReplySubject (subject : Str) : Str :=
  if "Re:".toList.isPrefixOf subject then subject
  else "Re: ".toList ++ subject

/-- A concrete inbound message whose subject already starts with `Re:`. -/
def emailDataReHello : EmailData :=
  { id := "m6".toList, threadId := "t6".toList, subject := "Re: hello".toList,
    fromHdr := "Alice <alice@example.com>".toList,
    toHdr := "addhe.warman+cs@gmail.com".toList, body := "hi".toList,
    replyTo := "alice@example.com".toList, autoSubmitted := [],
    xAutoResponseSuppress := [], precedence := [], xAutoreply := [],
    xAutorespond := [] }

/-- C6 counterexample: for an original subject `Re: hello` (already
`Re:`-prefixed) the claim demands the outgoing subject be unchanged, but
the dispatcher produces `Re: Re: hello`. -/
theorem claim_C6_counterexample :
    (composeReply false [] emailDataReHello "txt".toList).headers.lookup
        "subject".toList = some ("Re: Re: hello".toList) ∧
      claimedReplySubject emailDataReHello.subject = "Re: hello".toList ∧
      ¬ (composeReply false [] emailDataReHello "txt".toList).headers.lookup
          "subject".toList =
        some (claimedReplySubject emailDataReHello.subject) := by
  refine ⟨rfl, by decide, by decide⟩

/-- C6 (amended): the dispatcher always sets the outgoing subject to
`"Re: " + original subject`, even when the original subject already starts
with `Re:` (so `Re: Re:` subjects can be produced). -/
theorem claim_C6_subject_always_prefixed (upf : Bool) (pf : Str)
    (d : EmailData) (txt : Str) :
    (composeReply upf pf d txt).headers.lookup "subject".toList =
      some ("Re: ".toList ++ d.subject) := rfl

/-- The eligibility filter never allows a message whose Auto-Submitted
rejection condition holds: whatever the earlier rules decide, the verdict is
a rejection. -/
theorem filter_rejects_when_autoSubmitted (cfg : List Str) (d : EmailData)
    (h6 : autoSubmittedHeader d = true) :
    (is_email_allowed cfg d).1 = false := by
  unfold is_email_allowed
  by_cases h1 : toContainsAlias d = true
  · by_cases h2 : fromContainsAlias d = true
    · simp [h1, h2]
    · by_cases h3 : nameMatchesSystem d = true
      · simp [h1, h2, h3]
      · by_cases h4 : senderToSelf d = true
        · simp [h1, h2, h3, h4]
        · by_cases h5 : multipleReplyMarkers d = true
          · simp [h1, h2, h3, h4, h5]
          · simp [h1, h2, h3, h4, h5, h6]
  · simp [h1]

/-- C7: every dispatcher-composed reply carries the four loop-prevention
headers `Auto-Submitted: auto-replied`, `X-Auto-Response-Suppress: All`,
`Precedence: auto_reply`, `X-AutoReply: yes`; and feeding such a message
back through the eligibility filter (extracting its data as the pipeline
would) yields a rejection, for every filter configuration — the system's own
replies are self-identifying and never eligible. -/
theorem claim_C7_loop_prevention_headers (cfg : List Str) (upf : Bool)
    (pf : Str) (d : EmailData) (txt : Str) (mid tid : Str) :
    ("Auto-Submitted".toList, "auto-replied".toList) ∈
        (composeReply upf pf d txt).headers ∧
      ("X-Auto-Response-Suppress".toList, "All".toList) ∈
        (composeReply upf pf d txt).headers ∧
      ("Precedence".toList, "auto_reply".toList) ∈
        (composeReply upf pf d txt).headers ∧
      ("X-AutoReply".toList, "yes".toList) ∈
        (composeReply upf pf d txt).headers ∧
      (extract_email_data mid tid (composeReply upf pf d txt).headers
          (composeReply upf pf d txt).body).autoSubmitted =
        "auto-replied".toList ∧
      (is_email_allowed cfg
          (extract_email_data mid tid (composeReply upf pf d txt).headers
            (composeReply upf pf d txt).body)).1 = false := by
  refine ⟨by simp [composeReply], by simp [composeReply],
    by simp [composeReply], by simp [composeReply], rfl, ?_⟩
  exact filter_rejects_when_autoSubmitted cfg _ rfl

/-- A concrete instance of `claim_C7_loop_prevention_headers`: the reply to
`emailDataReHello` is itself rejected by the filter. -/
theorem claim_C7_loop_prevention_headers_witness :
    (is_email_allowed []
        (extract_email_data "m7".toList "t7".toList
          (composeReply false [] emailDataReHello "Thanks".toList).headers
          (composeReply false [] emailDataReHello "Thanks".toList).body)).1
      = false :=
  (claim_C7_loop_prevention_headers [] false [] emailDataReHello
    "Thanks".toList "m7".toList "t7".toList).2.2.2.2.2

/-! ## Duplicate-reply guard and per-message pipeline (claims C1, C2, C10)

Gmail API calls are modelled as oracle fields describing each call's
outcome; `none` stands for the call raising an exception. -/

/-- Outcome of the `labels().list` / `labels().create` calls: the label
catalog as `(name, id)` pairs, and the id a `create` would return; `none`
models the call raising. -/
structure LabelOps where
  listLabels : Option (List (Str × Str))
  createLabel : Option Str
  deriving DecidableEq, Repr

/-- The first catalog entry named `Auto-Replied`, as the lookup loops of
`main.py:350-354`, `main.py:380-384` and `main.py:721-725` find it. -/
def findAutoReplyLabelId (catalog : List (Str × Str)) : Option Str :=
  match catalog.find? (fun l => l.1 = AUTO_REPLY_LABEL) with
  | some l => some l.2
  | none => none

/-- Create-or-fetch of the reply label id: the catalog entry when present,
otherwise the outcome of the `create` call. -/
def resolveOrCreateLabelId (ops : LabelOps) (catalog : List (Str × Str)) :
    Option Str :=
  match findAutoReplyLabelId catalog with
  | some lid => some lid
  | none => ops.createLabel

/-- `has_auto_reply_label` (`main.py:336-371`): `msgLabels` is the
`labelIds` of the message fetched by the check itself (`none` = the fetch
raised).  Any exception yields `false` ("assume not replied to be safe",
`main.py:369-371`).  The source first checks the label *name* against
`labelIds` (`main.py:343`), then resolves/creates the label id and checks
that. -/
def has_auto_reply_label (ops : LabelOps) (msgLabels : Option (List Str)) :
    Bool :=
  match msgLabels with
  | none => false
  | some labelIds =>
    if AUTO_REPLY_LABEL ∈ labelIds then true
    else
      match ops.listLabels with
      | none => false
      | some catalog =>
        match resolveOrCreateLabelId ops catalog with
        | none => false
        | some lid => lid ∈ labelIds

/-- `add_auto_reply_label` (`main.py:373-407`): resolve or create the label
id, then `messages().modify`; `modifyOk` is the modify call's outcome.
Returns whether the label was applied; any exception yields `false`. -/
def add_auto_reply_label (ops : LabelOps) (modifyOk : Bool) : Bool :=
  match ops.listLabels with
  | none => false
  | some catalog =>
    match resolveOrCreateLabelId ops catalog with
    | none => false
    | some _ => modifyOk

/-- Effects of one `send_reply` call (`main.py:648-747`). -/
structure SendResult where
  sentId : Option Str
  sendAttempted : Bool
  sendSucceeded : Bool
  labeledOriginal : Bool
  deriving DecidableEq, Repr

/-- `send_reply` (`main.py:648-747`): thread dedup scan (skip when any
thread message's From contains the alias; a scan failure falls through to
the send), then the `messages().send` call (`sendOutcome = none` models the
send raising: the function returns `None` and does not label), then the
post-send create-or-fetch plus `messages().modify` on the original message;
a failure in that post-send section is caught by the outer `except` and the
function returns `None` with the original unlabeled. -/
def send_reply (threadFroms : Option (List Str)) (sendOutcome : Option Str)
    (ops : LabelOps) (modifyOk : Bool) : SendResult :=
  let skip : Bool :=
    match threadFroms with
    | none => false
    | some froms =>
      froms.any (fun f => pyIn "addhe.warman+cs@gmail.com".toList f)
  if skip then ⟨none, false, false, false⟩
  else
    match sendOutcome with
    | none => ⟨none, true, false, false⟩
    | some sid =>
      match ops.listLabels with
      | none => ⟨none, true, true, false⟩
      | some catalog =>
        match resolveOrCreateLabelId ops catalog with
        | none => ⟨none, true, true, false⟩
        | some _ =>
          if modifyOk then ⟨some sid, true, true, true⟩
          else ⟨none, true, true, false⟩

/-- Labels that make `process_message` skip a message (`main.py:761`). -/
def EXCLUDED_LABELS : List Str :=
  ["SENT", "DRAFT", "SPAM", "TRASH"].map String.toList

/-- A Gmail message as fetched by `get_message`. -/
structure MailMessage where
  id : Str
  threadId : Str
  labelIds : List Str
  internalDate : InternalDateField
  headers : List (Str × Str)
  body : Str
  deriving DecidableEq, Repr

/-- Oracle for one `process_message` invocation: outcomes of the Gmail API
calls it (and its callees) perform, plus the configuration and clock. -/
structure MsgSvc where
  /-- `get_message` result (`none` = error, the source returns early). -/
  message : Option MailMessage
  /-- `labelIds` returned by the message fetch inside
  `has_auto_reply_label` (`none` = that fetch raised). -/
  hlMsgLabels : Option (List Str)
  /-- label list/create outcomes. -/
  labelOps : LabelOps
  /-- `messages().modify` outcome. -/
  modifyOk : Bool
  /-- From headers of the thread messages seen by the dedup scan
  (`none` = the scan raised). -/
  threadFroms : Option (List Str)
  /-- `messages().send` outcome (`none` = raised). -/
  sendOutcome : Option Str
  /-- evaluation time, epoch milliseconds. -/
  nowMs : Int
  /-- configured sender-domain whitelist. -/
  allowedSenders : List Str
  deriving DecidableEq, Repr

/-- Where `process_message` exited. -/
inductive ExitPoint where
  | notRetrieved
  | nonIncoming
  | tooOld
  | alreadyLabeled
  | filtered
  | dispatched
  deriving DecidableEq, Repr

/-- Observable effects of one `process_message` invocation. -/
structure ProcTrace where
  genCalls : Nat
  sendAttempts : Nat
  sendSucceeded : Bool
  labelApplied : Bool
  exitPoint : ExitPoint
  deriving DecidableEq, Repr

/-- `process_message` (`main.py:749-807`): fetch, skip on
sent/draft/spam/trash labels, age check, duplicate-label check, extract,
eligibility filter, customer lookup + AI generation (one generation call),
`send_reply`, and then the **unconditional** `add_auto_reply_label` call of
`main.py:802-805` (executed whether or not the send succeeded).
`labelApplied` records whether the reply label was applied to the original
message by either path. -/
def process_message (svc : MsgSvc) : ProcTrace :=
  match svc.message with
  | none => ⟨0, 0, false, false, .notRetrieved⟩
  | some msg =>
    if EXCLUDED_LABELS.any (fun l => l ∈ msg.labelIds) then
      ⟨0, 0, false, false, .nonIncoming⟩
    else if !is_email_recent msg.internalDate svc.nowMs then
      ⟨0, 0, false, false, .tooOld⟩
    else if has_auto_reply_label svc.labelOps svc.hlMsgLabels then
      ⟨0, 0, false, false, .alreadyLabeled⟩
    else
      let d := extract_email_data msg.id msg.threadId msg.headers msg.body
      if !(is_email_allowed svc.allowedSenders d).1 then
        ⟨0, 0, false, false, .filtered⟩
      else
        let sr := send_reply svc.threadFroms svc.sendOutcome svc.labelOps
          svc.modifyOk
        let addOk := add_auto_reply_label svc.labelOps svc.modifyOk
        ⟨1, if sr.sendAttempted then 1 else 0, sr.sendSucceeded,
          sr.labeledOriginal || addOk, .dispatched⟩

/-- A concrete eligible inbound message: unread inbox mail to the alias from
an external sender, 1 ms younger than the age cutoff at the fixture clock
`nowMs = 10^12`. -/
def msgEligible : MailMessage :=
  { id := "m1".toList, threadId := "t1".toList,
    labelIds := ["INBOX".toList, "UNREAD".toList],
    internalDate := .val 999999999999,
    headers := [("From".toList, "Alice <alice@example.com>".toList),
                ("To".toList, "addhe.warman+cs@gmail.com".toList),
                ("Subject".toList, "hello".toList)],
    body := "hi".toList }

/-- Oracle fixture for claim C1: everything succeeds except the
`messages().send` call, which raises. -/
def svcSendFails : MsgSvc :=
  { message := some msgEligible,
    hlMsgLabels := some ["INBOX".toList, "UNREAD".toList],
    labelOps := { listLabels := some [(AUTO_REPLY_LABEL, "L1".toList)],
                  createLabel := some "L2".toList },
    modifyOk := true,
    threadFroms := some ["Alice <alice@example.com>".toList],
    sendOutcome := none,
    nowMs := 1000000000000,
    allowedSenders := [] }

/-- C1 (code bug): on a failed send the reply-marker label is nevertheless
applied.  At `svcSendFails` the send raises (`sendOutcome = none`), so
`send_reply` returns without labeling — but the unconditional
`add_auto_reply_label` call of `main.py:802-805` then applies the label
anyway: the trace records one failed send attempt and `labelApplied = true`,
contradicting the claim that a failed send leaves the label state
unchanged. -/
theorem claim_C1_label_applied_despite_failed_send :
    svcSendFails.sendOutcome = none ∧
      process_message svcSendFails =
        { genCalls := 1, sendAttempts := 1, sendSucceeded := false,
          labelApplied := true, exitPoint := .dispatched } :=
  ⟨rfl, rfl⟩

/-- C2: a message that already carries the reply-marker label (the catalog
maps `Auto-Replied` to an id that is among the labels the duplicate check
sees on the message) and reaches the label check (retrieved, not
sent/draft/spam/trash, recent) exits at the label check: zero generation
calls, zero send attempts, no label mutation. -/
theorem claim_C2_labeled_message_exits_at_label_check (svc : MsgSvc)
    (msg : MailMessage) (mlabels : List Str) (catalog : List (Str × Str))
    (lid : Str)
    (hmsg : svc.message = some msg)
    (hexc : EXCLUDED_LABELS.any (fun l => l ∈ msg.labelIds) = false)
    (hrec : is_email_recent msg.internalDate svc.nowMs = true)
    (hml : svc.hlMsgLabels = some mlabels)
    (hcat : svc.labelOps.listLabels = some catalog)
    (hfind : findAutoReplyLabelId catalog = some lid)
    (hmem : lid ∈ mlabels) :
    process_message svc =
      { genCalls := 0, sendAttempts := 0, sendSucceeded := false,
        labelApplied := false, exitPoint := .alreadyLabeled } := by
  have hhl : has_auto_reply_label svc.labelOps svc.hlMsgLabels = true := by
    rw [hml]
    unfold has_auto_reply_label
    by_cases hname : AUTO_REPLY_LABEL ∈ mlabels
    · simp [hname]
    · simp [hname, hcat, resolveOrCreateLabelId, hfind, hmem]
  unfold process_message
  rw [hmsg]
  simp [hexc, hrec, hhl]

/-- Oracle fixture for claim C2: `msgEligible` already carrying the reply
label id `L1` as seen by the duplicate check. -/
def svcLabeled : MsgSvc :=
  { message := some msgEligible,
    hlMsgLabels := some ["INBOX".toList, "UNREAD".toList, "L1".toList],
    labelOps := { listLabels := some [(AUTO_REPLY_LABEL, "L1".toList)],
                  createLabel := some "L2".toList },
    modifyOk := true,
    threadFroms := some ["Alice <alice@example.com>".toList],
    sendOutcome := some "s1".toList,
    nowMs := 1000000000000,
    allowedSenders := [] }

/-- A concrete instance of `claim_C2_labeled_message_exits_at_label_check`. -/
theorem claim_C2_labeled_message_exits_at_label_check_witness :
    process_message svcLabeled =
      { genCalls := 0, sendAttempts := 0, sendSucceeded := false,
        labelApplied := false, exitPoint := .alreadyLabeled } :=
  claim_C2_labeled_message_exits_at_label_check svcLabeled msgEligible
    ["INBOX".toList, "UNREAD".toList, "L1".toList]
    [(AUTO_REPLY_LABEL, "L1".toList)] "L1".toList
    rfl (by decide) (by decide) rfl rfl (by decide) (by decide)

/-- An internal error occurs inside `has_auto_reply_label`: the message
fetch raises, the label list raises, or the label is absent from the
catalog and the create call raises. -/
def labelCheckError (ops : LabelOps) (msgLabels : Option (List Str)) : Prop :=
  msgLabels = none ∨
    ∃ ml, msgLabels = some ml ∧ AUTO_REPLY_LABEL ∉ ml ∧
      (ops.listLabels = none ∨
        ∃ cat, ops.listLabels = some cat ∧ findAutoReplyLabelId cat = none ∧
          ops.createLabel = none)

/-- C10: the pre-send label check fails open — on any internal error while
reading or creating labels it reports "not yet replied" (`false`), and for a
message that passes the other gates the pipeline therefore proceeds to
generation and dispatch (duplicate prevention then resting on the thread
scan inside `send_reply`). -/
theorem claim_C10_label_check_fails_open (svc : MsgSvc) (msg : MailMessage)
    (herr : labelCheckError svc.labelOps svc.hlMsgLabels)
    (hmsg : svc.message = some msg)
    (hexc : EXCLUDED_LABELS.any (fun l => l ∈ msg.labelIds) = false)
    (hrec : is_email_recent msg.internalDate svc.nowMs = true)
    (hallow : (is_email_allowed svc.allowedSenders
        (extract_email_data msg.id msg.threadId msg.headers msg.body)).1
      = true) :
    has_auto_reply_label svc.labelOps svc.hlMsgLabels = false ∧
      (process_message svc).genCalls = 1 ∧
      (process_message svc).exitPoint = .dispatched := by
  have hfalse : has_auto_reply_label svc.labelOps svc.hlMsgLabels = false := by
    rcases herr with h | ⟨ml, hml, hname, h2⟩
    · rw [h]; rfl
    · rw [hml]
      unfold has_auto_reply_label
      rcases h2 with hll | ⟨cat, hcat, hfind, hcreate⟩
      · simp [hname, hll]
      · simp [hname, hcat, resolveOrCreateLabelId, hfind, hcreate]
  refine ⟨hfalse, ?_⟩
  unfold process_message
  rw [hmsg]
  simp [hexc, hrec, hfalse, hallow]

/-- Oracle fixture for claim C10: the label check's own message fetch
raises; everything else succeeds. -/
def svcLabelCheckErr : MsgSvc :=
  { message := some msgEligible,
    hlMsgLabels := none,
    labelOps := { listLabels := some [(AUTO_REPLY_LABEL, "L1".toList)],
                  createLabel := some "L2".toList },
    modifyOk := true,
    threadFroms := some ["Alice <alice@example.com>".toList],
    sendOutcome := some "s1".toList,
    nowMs := 1000000000000,
    allowedSenders := [] }

/-- A concrete instance of `claim_C10_label_check_fails_open`. -/
theorem claim_C10_label_check_fails_open_witness :
    has_auto_reply_label svcLabelCheckErr.labelOps svcLabelCheckErr.hlMsgLabels
        = false ∧
      (process_message svcLabelCheckErr).genCalls = 1 ∧
      (process_message svcLabelCheckErr).exitPoint = .dispatched :=
  claim_C10_label_check_fails_open svcLabelCheckErr msgEligible
    (Or.inl rfl) rfl (by decide) (by decide) (by decide)

/-! ## Three-tier history fetch `process_new_messages` (claims C4, C5) -/

/-- One history record: `some ids` when the record has a `messagesAdded` key
with the given message ids, `none` when the key is absent. -/
structure HistoryRecord where
  messagesAdded : Option (List Str)
  deriving DecidableEq, Repr

/-- Oracle for one `process_new_messages` invocation. -/
structure FetchSvc where
  /-- `history().list` outcome per `startHistoryId` (`none` = the call
  raised, including HTTP 404). -/
  histList : Int → Option (List HistoryRecord)
  /-- metadata fetch per message id: its `labelIds` (`none` = raised). -/
  meta : Str → Option (List Str)
  /-- `messages().list(labelIds=[INBOX, UNREAD], maxResults=10)` result. -/
  recentUnread : List Str

/-- The tier-1/tier-2 inner loop over one record's `messagesAdded` ids
(`main.py:840-870` and `main.py:890-909`): skip ids already in the
`processed` set, fetch metadata (skip on error), require INBOX and UNREAD
and none of the excluded labels, then add to the set and process.  Returns
the ids processed (in order) and the updated set. -/
def procAddedIds (svc : FetchSvc) : List Str → List Str →
    List Str × List Str
  | [], seen => ([], seen)
  | mid :: rest, seen =>
    if mid ∈ seen then procAddedIds svc rest seen
    else
      match svc.meta mid with
      | none => procAddedIds svc rest seen
      | some labels =>
        if ¬ ("INBOX".toList ∈ labels ∧ "UNREAD".toList ∈ labels) then
          procAddedIds svc rest seen
        else if EXCLUDED_LABELS.any (fun l => l ∈ labels) then
          procAddedIds svc rest seen
        else
          (mid :: (procAddedIds svc rest (mid :: seen)).1,
            (procAddedIds svc rest (mid :: seen)).2)

/-- The tier loop over history records, threading the `processed` set
through the records of one tier. -/
def tierLoop (svc : FetchSvc) : List HistoryRecord → List Str → List Str
  | [], _ => []
  | rec :: rest, seen =>
    match rec.messagesAdded with
    | none => tierLoop svc rest seen
    | some ids =>
      (procAddedIds svc ids seen).1 ++
        tierLoop svc rest (procAddedIds svc ids seen).2

/-- `found_added` after a tier: some record carried a `messagesAdded` key
(`main.py:837-838`). -/
def foundAdded (records : List HistoryRecord) : Bool :=
  records.any (fun r => r.messagesAdded.isSome)

/-- The backfill loop (`main.py:917-942`): for each candidate id from the
direct INBOX+UNREAD query, fetch metadata (skip on error), skip on an
excluded label, otherwise process.  No INBOX/UNREAD re-check and no
`processed` set in this loop. -/
def backfillLoop (svc : FetchSvc) : List Str → List Str
  | [] => []
  | mid :: rest =>
    match svc.meta mid with
    | none => backfillLoop svc rest
    | some labels =>
      if EXCLUDED_LABELS.any (fun l => l ∈ labels) then backfillLoop svc rest
      else mid :: backfillLoop svc rest

/-- Observable effects of one `process_new_messages` invocation: the ids
processed by each tier and whether the backfill scan was invoked. -/
structure FetchTrace where
  tier1 : List Str
  tier2 : List Str
  backfillInvoked : Bool
  backfill : List Str
  deriving DecidableEq, Repr

/-- `process_new_messages` (`main.py:809-946`).  Tier 1: `history().list`
at the notified cursor (an error returns early); `found_added` is set iff
some tier-1 record carries `messagesAdded`.  Tier 2 (only when
`found_added` is false): retry at cursor − 1 with a **fresh** `processed`
set (`main.py:887`); a tier-2 error is caught and ignored.  Tier 2 does not
update `found_added`, so the backfill scan of `main.py:917-942` is invoked
exactly when `found_added` is false — regardless of what tier 2 found. -/
def process_new_messages (svc : FetchSvc) (historyId : Int) : FetchTrace :=
  match svc.histList historyId with
  | none => ⟨[], [], false, []⟩
  | some records =>
    let tier1 := tierLoop svc records []
    let found := foundAdded records
    let tier2 :=
      if found then []
      else
        match svc.histList (historyId - 1) with
        | none => []
        | some records2 => tierLoop svc records2 []
    let backfill := if found then [] else backfillLoop svc svc.recentUnread
    ⟨tier1, tier2, !found, backfill⟩

/-- Invariants of the per-tier inner loop: the processed ids are distinct,
none of them was already in the `seen` set, the `seen` set only grows, and
every processed id ends up in the final set. -/
theorem procAddedIds_nodup_spec (svc : FetchSvc) (ids : List Str) :
    ∀ seen : List Str,
      (procAddedIds svc ids seen).1.Nodup ∧
        (∀ x ∈ (procAddedIds svc ids seen).1, x ∉ seen) ∧
        (∀ x ∈ seen, x ∈ (procAddedIds svc ids seen).2) ∧
        (∀ x ∈ (procAddedIds svc ids seen).1,
          x ∈ (procAddedIds svc ids seen).2) := by
  induction ids with
  | nil =>
    intro seen
    refine ⟨by simp [procAddedIds], by simp [procAddedIds],
      fun x hx => by simpa [procAddedIds] using hx, by simp [procAddedIds]⟩
  | cons mid rest ih =>
    intro seen
    by_cases hseen : mid ∈ seen
    · simpa only [procAddedIds, if_pos hseen] using ih seen
    · cases hmeta : svc.meta mid with
      | none => simpa only [procAddedIds, if_neg hseen, hmeta] using ih seen
      | some labels =>
        by_cases hlab : ¬ ("INBOX".toList ∈ labels ∧ "UNREAD".toList ∈ labels)
        · simpa only [procAddedIds, if_neg hseen, hmeta, if_pos hlab] using
            ih seen
        · by_cases hexc : EXCLUDED_LABELS.any (fun l => l ∈ labels) = true
          · simpa only [procAddedIds, if_neg hseen, hmeta, if_neg hlab,
              if_pos hexc] using ih seen
          · simp only [procAddedIds, if_neg hseen, hmeta, if_neg hlab,
              if_neg hexc]
            obtain ⟨h1, h2, h3, h4⟩ := ih (mid :: seen)
            refine ⟨?_, ?_, ?_, ?_⟩
            · exact List.nodup_cons.mpr
                ⟨fun hx => (h2 _ hx) (List.mem_cons_self _ _), h1⟩
            · intro x hx
              rcases List.mem_cons.mp hx with rfl | hx'
              · exact hseen
              · exact fun hxseen => (h2 _ hx') (List.mem_cons_of_mem _ hxseen)
            · intro x hx
              exact h3 _ (List.mem_cons_of_mem _ hx)
            · intro x hx
              rcases List.mem_cons.mp hx with rfl | hx'
              · exact h3 _ (List.mem_cons_self _ _)
              · exact h4 _ hx'

/-- Invariants of a tier: the ids processed by one tier are distinct and
disjoint from the initial `seen` set. -/
theorem tierLoop_nodup_spec (svc : FetchSvc) (records : List HistoryRecord) :
    ∀ seen : List Str,
      (tierLoop svc records seen).Nodup ∧
        ∀ x ∈ tierLoop svc records seen, x ∉ seen := by
  induction records with
  | nil => intro seen; simp [tierLoop]
  | cons rec rest ih =>
    intro seen
    cases hma : rec.messagesAdded with
    | none => simpa only [tierLoop, hma] using ih seen
    | some ids =>
      simp only [tierLoop, hma]
      obtain ⟨hn1, hd1, hsub, hsub2⟩ := procAddedIds_nodup_spec svc ids seen
      obtain ⟨hn2, hd2⟩ := ih (procAddedIds svc ids seen).2
      refine ⟨List.Nodup.append hn1 hn2 ?_, ?_⟩
      · intro a ha1 ha2
        exact (hd2 a ha2) (hsub2 a ha1)
      · intro x hx
        rcases List.mem_append.mp hx with hx1 | hx2
        · exact hd1 x hx1
        · exact fun hxseen => (hd2 x hx2) (hsub x hxseen)

/-- A tier whose records carry no `messagesAdded` key processes nothing. -/
theorem tierLoop_eq_nil_of_not_found (svc : FetchSvc)
    (records : List HistoryRecord) (h : foundAdded records = false) :
    ∀ seen, tierLoop svc records seen = [] := by
  induction records with
  | nil => intro seen; rfl
  | cons rec rest ih =>
    intro seen
    simp only [foundAdded, List.any_cons, Bool.or_eq_false_iff] at h
    obtain ⟨h1, h2⟩ := h
    cases hma : rec.messagesAdded with
    | none => simpa only [tierLoop, hma] using ih (by simpa [foundAdded] using h2) seen
    | some ids => simp [hma] at h1

/-- C5: within one `process_new_messages` invocation, no message id is
processed twice across tiers 1 and 2: the combined processed list is
duplicate-free, and in fact tier 2 only ever processes ids when tier 1
processed none (tier 2 runs only when tier 1 surfaced no `messagesAdded`
event, in which case tier 1's `processed` set is empty — so the fresh tier-2
set coincides with it). -/
theorem claim_C5_no_double_processing_across_tiers (svc : FetchSvc)
    (historyId : Int) :
    ((process_new_messages svc historyId).tier1 ++
        (process_new_messages svc historyId).tier2).Nodup ∧
      ((process_new_messages svc historyId).tier1.isEmpty ||
        (process_new_messages svc historyId).tier2.isEmpty) = true := by
  unfold process_new_messages
  cases hh : svc.histList historyId with
  | none => simp
  | some records =>
    by_cases hf : foundAdded records = true
    · constructor
      · simpa [hf] using (tierLoop_nodup_spec svc records []).1
      · simp [hf]
    · have hf' : foundAdded records = false := by
        simpa using hf
      have ht1 : tierLoop svc records [] = [] :=
        tierLoop_eq_nil_of_not_found svc records hf' []
      cases hh2 : svc.histList (historyId - 1) with
      | none => simp [hf', ht1, hh2]
      | some recs2 =>
        constructor
        · simpa [hf', ht1, hh2] using (tierLoop_nodup_spec svc recs2 []).1
        · simp [hf', ht1]

/-- Oracle fixture for claim C4: the primary history fetch at cursor 100
returns no records, the off-by-one retry at cursor 99 returns one record
with a `messagesAdded` event for `m5` (an unread inbox message), and the
backfill query also lists `m5`. -/
def svcC4 : FetchSvc :=
  { histList := fun h =>
      if h = 100 then some []
      else if h = 99 then some [⟨some ["m5".toList]⟩]
      else none,
    meta := fun mid =>
      if mid = "m5".toList then some ["INBOX".toList, "UNREAD".toList]
      else none,
    recentUnread := ["m5".toList] }

/-- C4 (code bug): tier 2 yields (and processes) a `messagesAdded` event,
yet the backfill scan is still invoked — `found_added` is never updated by
tier 2 (`main.py:879-917`), so the backfill condition only reflects tier 1.
The claim that the backfill runs iff **both** tiers yield zero
"message added" events is violated at this input (where the backfill even
reprocesses the id tier 2 already processed). -/
theorem claim_C4_backfill_despite_tier2_results :
    process_new_messages svcC4 100 =
      { tier1 := [], tier2 := ["m5".toList], backfillInvoked := true,
        backfill := ["m5".toList] } := by
  decide

/-! ## The HTTP push handler `process_pubsub_push` (claim C9) -/

/-- Classification of one POST to `/process` by the decision points of
`process_pubsub_push` (`main.py:952-1049`), with `TEST_MODE` off. -/
inductive PushRequest where
  /-- the request body fails JSON parsing: `get_json` raises, caught at
  `main.py:971-973`. -/
  | badJson
  /-- `get_json` returns a falsy envelope (JSON `null` or an empty object),
  `main.py:975`. -/
  | noEnvelope
  /-- the envelope is not an object, or has no `message` field,
  `main.py:979`. -/
  | notDictOrNoMessage
  /-- the envelope has a `message` field holding a non-container value
  (e.g. JSON `null` or a number): the membership test
  `'data' not in message` at `main.py:987` raises an uncaught `TypeError`,
  which the HTTP layer turns into a server error. -/
  | messageNotContainer
  /-- the inner message is a container without a `data` field,
  `main.py:987`. -/
  | messageNoData
  /-- the `data` field fails base64 or JSON decoding, or the decoded
  payload has no `get` method: caught at `main.py:1047-1049`. -/
  | dataUndecodable
  /-- the decoded payload, with its optional `emailAddress` and `historyId`
  fields (`none` = absent; an empty string is falsy and treated as absent by
  `main.py:1003`). -/
  | payload (emailAddress : Option String) (historyId : Option String)
  deriving DecidableEq, Repr

/-- Downstream dependency outcomes: Secret Manager credentials retrieval
and Gmail service construction. -/
structure Deps where
  credsOk : Bool
  buildOk : Bool
  deriving DecidableEq, Repr

/-- Python truthiness of an optional string field. -/
def truthy : Option String → Bool
  | none => false
  | some s => !s.isEmpty

/-- `process_pubsub_push` (`main.py:952-1049`), `TEST_MODE` off, modelled as
`(HTTP status, whether the Gmail history processing stage was reached)`.
`process_new_messages` catches all of its own exceptions (`main.py:945`), so
once credentials and the service client are obtained the handler returns
200 regardless of what happens to individual messages; an uncaught
exception in the handler body (the `messageNotContainer` case) surfaces as
the framework's 500 response. -/
def process_pubsub_push (req : PushRequest) (deps : Deps) : Nat × Bool :=
  match req with
  | .badJson => (400, false)
  | .noEnvelope => (400, false)
  | .notDictOrNoMessage => (400, false)
  | .messageNotContainer => (500, false)
  | .messageNoData => (400, false)
  | .dataUndecodable => (400, false)
  | .payload ea hid =>
    if !truthy ea || !truthy hid then (400, false)
    else if !deps.credsOk then (500, false)
    else if !deps.buildOk then (500, false)
    else (200, true)

/-- The response classification asserted by claim C9: every malformed
envelope/payload (including a non-container `message` field) is a
client-error with no Mailbox Service call, dependency failures are server
errors, and a structurally valid notification succeeds. -/
def claimedPushStatus (req : PushRequest) (deps : Deps) : Nat :=
  match req with
  | .badJson | .noEnvelope | .notDictOrNoMessage | .messageNotContainer
  | .messageNoData | .dataUndecodable => 400
  | .payload ea hid =>
    if !truthy ea || !truthy hid then 400
    else if !deps.credsOk || !deps.buildOk then 500
    else 200

/-- C9 counterexample: an envelope whose `message` field is `null` (or any
non-container) is a malformed inner payload, so the claim requires a
client-error response; the handler instead raises an uncaught `TypeError`
at `'data' not in message` and the response is a 500 server error (no
Mailbox Service call is attempted, though). -/
theorem claim_C9_counterexample :
    (process_pubsub_push .messageNotContainer ⟨true, true⟩).1 = 500 ∧
      claimedPushStatus .messageNotContainer ⟨true, true⟩ = 400 ∧
      ¬ (process_pubsub_push .messageNotContainer ⟨true, true⟩).1 =
        claimedPushStatus .messageNotContainer ⟨true, true⟩ := by
  decide

/-- The response classification with the `messageNotContainer` case amended
to the server error the code actually produces. -/
def amendedPushStatus (req : PushRequest) (deps : Deps) : Nat :=
  match req with
  | .messageNotContainer => 500
  | .badJson | .noEnvelope | .notDictOrNoMessage
  | .messageNoData | .dataUndecodable => 400
  | .payload ea hid =>
    if !truthy ea || !truthy hid then 400
    else if !deps.credsOk || !deps.buildOk then 500
    else 200

/-- C9 (amended): a malformed envelope or inner payload, or one missing
`emailAddress` or `historyId`, yields a client-error response — except a
present-but-non-container `message` field, where the membership test raises
and the handler surfaces a 500 — in all these cases with no Mailbox Service
call attempted; a credentials or client-construction failure yields a
server error; a structurally valid notification yields 200, and the history
processing stage is reached exactly in that last case. -/
theorem claim_C9_push_response_codes (req : PushRequest) (deps : Deps) :
    process_pubsub_push req deps =
      (amendedPushStatus req deps,
        amendedPushStatus req deps = 200 && deps.credsOk && deps.buildOk) := by
  cases req with
  | payload ea hid =>
    simp only [process_pubsub_push, amendedPushStatus]
    by_cases hfields : (!truthy ea || !truthy hid) = true
    · simp [hfields]
    · by_cases hc : deps.credsOk = true
      · by_cases hb : deps.buildOk = true
        · simp [hfields, hc, hb]
        · simp [hfields, hc, hb]
      · simp [hfields, hc]
  | badJson => simp [process_pubsub_push, amendedPushStatus]
  | noEnvelope => simp [process_pubsub_push, amendedPushStatus]
  | notDictOrNoMessage => simp [process_pubsub_push, amendedPushStatus]
  | messageNotContainer => simp [process_pubsub_push, amendedPushStatus]
  | messageNoData => simp [process_pubsub_push, amendedPushStatus]
  | dataUndecodable => simp [process_pubsub_push, amendedPushStatus]

end AutoReply
